import Mathlib

/-!
Verification of the split-payment core (`crates/router/src/core/split_payments.rs`).

The two functions of the source file are shallowly embedded here:

* `get_payment_method_and_amount_split` — the allocation engine turning the
  request's declared instrument descriptors plus live gift-card balances into
  an ordered list of `(payment method data, amount)` legs;
* `payments_execute_split_core` — the orchestrator that loads and transitions
  the payment intent, invokes the allocation, drives each leg through the
  external authorize pipeline and finalizes the intent status.

External collaborators (the intent store, the Redis balance service, the
per-leg authorize pipeline) are passed in as explicit oracle functions, and
the orchestrator additionally records a trace of the persisted intent updates
it issues and of the pipeline calls it makes, so that claims about "no update
was issued" or "no later leg was called" are statable.  Monetary amounts
(`MinorUnit` in the source) are embedded as `Int`.
-/

namespace SplitPayments

/-- Payment method type tag (`enums::PaymentMethod`): the gift-card tag plus a
couple of representative non-gift-card tags. -/
inductive PaymentMethod
  | giftCard
  | card
  | wallet
  deriving DecidableEq

/-- Payment method subtype tag (`enums::PaymentMethodType` in the source's
`payment_method_subtype` fields). -/
inductive PaymentMethodSubtype
  | givex
  | paySafeCard
  | credit
  deriving DecidableEq

/-- Gift-card payload.  `subtype` models `get_payment_method_type()`; `key`
models `get_payment_method_key()`, which returns a `Result` in the source, so
a `none` key is a key-derivation failure. -/
structure GiftCardData where
  subtype : PaymentMethodSubtype
  key : Option String
  deriving DecidableEq

/-- Discriminated payment-method payload (`PaymentMethodData`): the gift-card
variant plus a catch-all non-gift-card variant carrying an opaque token. -/
inductive PaymentMethodData
  | giftCard (data : GiftCardData)
  | card (token : String)
  deriving DecidableEq

/-- One declared split descriptor (`SplitPaymentMethodDataRequest`). -/
structure SplitPaymentMethodDataRequest where
  payment_method_data : PaymentMethodData
  payment_method_type : PaymentMethod
  payment_method_subtype : PaymentMethodSubtype
  deriving DecidableEq

/-- The request's top-level `payment_method_data` container, whose inner
payload is optional. -/
structure ConfirmPaymentMethodData where
  payment_method_data : Option PaymentMethodData
  deriving DecidableEq

/-- The confirm-intent request fields consumed by this core
(`PaymentsConfirmIntentRequest`). -/
structure PaymentsConfirmIntentRequest where
  split_payment_method_data : Option (List SplitPaymentMethodDataRequest)
  payment_method_data : ConfirmPaymentMethodData
  payment_method_type : PaymentMethod
  payment_method_subtype : PaymentMethodSubtype
  deriving DecidableEq

/-- Intent lifecycle status (`common_enums::IntentStatus`), restricted to the
statuses this flow touches. -/
inductive IntentStatus
  | requiresPaymentMethod
  | splitInProgress
  | succeeded
  deriving DecidableEq

/-- `enums::ActiveAttemptIDType`. -/
inductive ActiveAttemptIDType
  | attemptID
  deriving DecidableEq

/-- The payment intent fields consumed by this flow. -/
structure PaymentIntent where
  order_amount : Int
  status : IntentStatus
  active_attempt_id_type : Option ActiveAttemptIDType
  active_attempts_group_id : Option String
  deriving DecidableEq

/-- `domain::PaymentMethodBalanceKey`. -/
structure PaymentMethodBalanceKey where
  payment_method_type : PaymentMethod
  payment_method_subtype : PaymentMethodSubtype
  payment_method_key : String
  deriving DecidableEq

/-- Balance record returned by the balance service for one key. -/
structure BalanceRecord where
  balance : Int
  deriving DecidableEq

/-- The balance map returned by
`fetch_payment_methods_balances_from_redis`, embedded as an association
list from balance key to record. -/
abbrev BalanceMap := List (PaymentMethodBalanceKey × BalanceRecord)

/-- Structured API errors (`errors::ApiErrorResponse`), restricted to the
variants this flow produces. -/
inductive ApiErrorResponse
  | missingRequiredField (field_name : String)
  | invalidRequestData (message : String)
  | internalServerError
  | paymentNotFound
  deriving DecidableEq

/-- `balances.get(&key)`: association-list lookup standing in for the hash-map
lookup of the source. -/
def lookupBalance (balances : BalanceMap) (k : PaymentMethodBalanceKey) :
    Option BalanceRecord :=
  (balances.find? (fun p => p.1 == k)).map (fun p => p.2)

/-- `balances.iter().fold(MinorUnit::zero(), |acc, x| acc + x.1.balance)`:
the sum of every fetched balance in the map. -/
def totalBalances (balances : BalanceMap) : Int :=
  balances.foldl (fun acc x => acc + x.2.balance) 0

/-- The filter used for the primary-instrument cardinality check:
`pm_data.payment_method_type != enums::PaymentMethod::GiftCard`. -/
def isNonGiftCard (pm : SplitPaymentMethodDataRequest) : Bool :=
  pm.payment_method_type != PaymentMethod.giftCard

/-- The merge step: extend the declared split descriptors with the one
descriptor built from the request's top-level instrument fields; the
top-level payload being absent is a `MissingRequiredField` failure (the
source reuses the field name `split_payment_method_data` in that error). -/
def mergeStep (request : PaymentsConfirmIntentRequest)
    (split_payment_methods_data : List SplitPaymentMethodDataRequest) :
    Except ApiErrorResponse (List SplitPaymentMethodDataRequest) :=
  match request.payment_method_data.payment_method_data with
  | none => .error (.missingRequiredField "split_payment_method_data")
  | some parent_pm_data =>
      .ok (split_payment_methods_data ++
        [{ payment_method_data := parent_pm_data
           payment_method_type := request.payment_method_type
           payment_method_subtype := request.payment_method_subtype }])

/-- The gift-card extraction loop over the working list (after the primary
instrument was removed): every remaining descriptor must carry a gift-card
payload, otherwise `InvalidRequestData`. -/
def extractGiftCards : List SplitPaymentMethodDataRequest →
    Except ApiErrorResponse (List GiftCardData)
  | [] => .ok []
  | elem :: rest =>
      match elem.payment_method_data with
      | .giftCard gift_card_data =>
          match extractGiftCards rest with
          | .error e => .error e
          | .ok gcs => .ok (gift_card_data :: gcs)
      | _ => .error (.invalidRequestData "Only Gift Card supported for Split Payments")

/-- One gift-card leg: rebuild the balance key from the payload (key
derivation may fail with `InvalidRequestData`), look its balance up in the
fetched map (a miss is an `InternalServerError`), and charge the full fetched
balance. -/
def giftCardLeg (balances : BalanceMap) (elem : GiftCardData) :
    Except ApiErrorResponse (PaymentMethodData × Int) :=
  match elem.key with
  | none => .error (.invalidRequestData "Unable to get unique key for payment method")
  | some k =>
      let pm_balance_key : PaymentMethodBalanceKey :=
        { payment_method_type := PaymentMethod.giftCard
          payment_method_subtype := elem.subtype
          payment_method_key := k }
      match lookupBalance balances pm_balance_key with
      | none => .error .internalServerError
      | some pm_balance => .ok (.giftCard elem, pm_balance.balance)

/-- The gift-card leg loop (`gift_card_data_vec.iter().map(...).collect()`),
failing on the first bad element. -/
def giftCardLegs (balances : BalanceMap) : List GiftCardData →
    Except ApiErrorResponse (List (PaymentMethodData × Int))
  | [] => .ok []
  | elem :: rest =>
      match giftCardLeg balances elem with
      | .error e => .error e
      | .ok leg =>
          match giftCardLegs balances rest with
          | .error e => .error e
          | .ok legs => .ok (leg :: legs)

/-- The tail of the allocation after validation, extraction and the balance
fetch: compute the remaining amount, build the gift-card legs, and prepend
the primary-instrument leg when `remaining > 0` (failing when it is required
but absent). -/
def allocateWithBalances (payment_intent : PaymentIntent)
    (non_gift_card_pm_data : Option SplitPaymentMethodDataRequest)
    (gift_card_data_vec : List GiftCardData) (balances : BalanceMap) :
    Except ApiErrorResponse (List (PaymentMethodData × Int)) :=
  let total_balances := totalBalances balances
  let remaining_amount := max (payment_intent.order_amount - total_balances) 0
  match giftCardLegs balances gift_card_data_vec with
  | .error e => .error e
  | .ok pm_split_amt_tuple =>
      if remaining_amount > 0 then
        match non_gift_card_pm_data with
        | none => .error (.invalidRequestData "Requires additional payment method data")
        | some d => .ok ((d.payment_method_data, remaining_amount) :: pm_split_amt_tuple)
      else .ok pm_split_amt_tuple

/-- `get_payment_method_and_amount_split`.  The Redis balance service is the
`fetch` oracle; the second component of the result records whether the
balance lookup was actually issued on the taken path. -/
def get_payment_method_and_amount_split
    (fetch : List GiftCardData → Except ApiErrorResponse BalanceMap)
    (request : PaymentsConfirmIntentRequest) (payment_intent : PaymentIntent) :
    Except ApiErrorResponse (List (PaymentMethodData × Int)) × Bool :=
  match request.split_payment_method_data with
  | none => (.error (.missingRequiredField "split_payment_method_data"), false)
  | some split_payment_methods_data =>
      match mergeStep request split_payment_methods_data with
      | .error e => (.error e, false)
      | .ok combined_pm_data =>
          if (combined_pm_data.filter isNonGiftCard).length > 1 then
            (.error (.invalidRequestData
              "At most one non-gift card payment method is allowed"), false)
          else
            let non_gift_card_pm := combined_pm_data.findIdx? isNonGiftCard
            let non_gift_card_pm_data :=
              non_gift_card_pm.bind (fun index => combined_pm_data[index]?)
            let working :=
              match non_gift_card_pm with
              | some index => combined_pm_data.eraseIdx index
              | none => combined_pm_data
            match extractGiftCards working with
            | .error e => (.error e, false)
            | .ok gift_card_data_vec =>
                match fetch gift_card_data_vec with
                | .error e => (.error e, true)
                | .ok balances =>
                    (allocateWithBalances payment_intent non_gift_card_pm_data
                      gift_card_data_vec balances, true)

/-- The intent updates this flow issues
(`PaymentIntentUpdate::SplitUpdate` and `PaymentIntentUpdate::VoidUpdate`). -/
inductive PaymentIntentUpdate
  | splitUpdate (updated_by : String) (active_attempt_id_type : ActiveAttemptIDType)
      (active_attempts_group_id : String)
  | voidUpdate (status : IntentStatus) (updated_by : String)
  deriving DecidableEq

/-- The per-leg data returned by the authorize pipeline
(`PaymentConfirmData`): the claims only consume its `payment_intent`, which
the orchestrator feeds into the per-leg status reset. -/
structure PaymentConfirmData where
  payment_intent : PaymentIntent
  deriving DecidableEq

/-- Observable events of one orchestration run: a persisted intent update was
issued, or the authorize pipeline was called for the leg at a given
position. -/
inductive SplitEvent
  | updatedIntent (u : PaymentIntentUpdate)
  | calledLeg (i : Nat)
  deriving DecidableEq

/-- Outcome of one orchestration run.  `panicked` is the embedding of a Rust
panic (the source's `payment_response_data.unwrap()` on `None`): the run
neither returns a response nor a structured error. -/
inductive SplitOutcome
  | ok (last_leg : PaymentConfirmData)
  | err (e : ApiErrorResponse)
  | panicked
  deriving DecidableEq

/-- The external collaborators of `payments_execute_split_core`, as oracles:
intent store find/update, the Redis balance fetch, and the per-leg authorize
pipeline (`get_trackers_for_split_payments` plus `payments_operation_core`,
indexed by leg position so each call may answer differently).  `updated_by`
is the merchant storage-scheme string and `generated_group_id` the freshly
generated attempt-group identifier. -/
structure SplitEnv where
  find_payment_intent : Except Unit PaymentIntent
  update_payment_intent : PaymentIntent → PaymentIntentUpdate → Except Unit PaymentIntent
  fetch : List GiftCardData → Except ApiErrorResponse BalanceMap
  runLeg : Nat → PaymentMethodData × Int → Except ApiErrorResponse PaymentConfirmData
  updated_by : String
  generated_group_id : String

/-- The sequential leg loop of `payments_execute_split_core`: call the
pipeline for each leg in order; after a successful call, issue the
`VoidUpdate`/`RequiresPaymentMethod` reset on the returned intent (a failed
update is an `InternalServerError`); retain the last leg's result.  Returns
the final accumulator together with the event trace of the loop. -/
def runLegs (env : SplitEnv) :
    List (PaymentMethodData × Int) → Nat → Option PaymentConfirmData →
    Except ApiErrorResponse (Option PaymentConfirmData) × List SplitEvent
  | [], _, payment_response_data => (.ok payment_response_data, [])
  | leg :: rest, i, _ =>
      match env.runLeg i leg with
      | .error e => (.error e, [.calledLeg i])
      | .ok payment_data =>
          let upd := PaymentIntentUpdate.voidUpdate .requiresPaymentMethod env.updated_by
          match env.update_payment_intent payment_data.payment_intent upd with
          | .error _ => (.error .internalServerError, [.calledLeg i, .updatedIntent upd])
          | .ok _ =>
              let next := runLegs env rest (i + 1) (some payment_data)
              (next.1, .calledLeg i :: .updatedIntent upd :: next.2)

/-- `payments_execute_split_core`: load the intent (a miss is
`PaymentNotFound`), issue the entry `SplitUpdate` (a failure is
`InternalServerError`), run the allocation on the updated intent, drive the
legs, issue the terminal `Succeeded` update on the post-entry intent, and
finally unwrap the retained leg result — which panics when no leg executed.
The result is paired with the run's event trace. -/
def payments_execute_split_core (env : SplitEnv)
    (request : PaymentsConfirmIntentRequest) : SplitOutcome × List SplitEvent :=
  match env.find_payment_intent with
  | .error _ => (.err .paymentNotFound, [])
  | .ok payment_intent =>
      let payment_intent_update :=
        PaymentIntentUpdate.splitUpdate env.updated_by .attemptID env.generated_group_id
      match env.update_payment_intent payment_intent payment_intent_update with
      | .error _ => (.err .internalServerError, [.updatedIntent payment_intent_update])
      | .ok payment_intent2 =>
          match (get_payment_method_and_amount_split env.fetch request payment_intent2).1 with
          | .error e => (.err e, [.updatedIntent payment_intent_update])
          | .ok pm_amount_split =>
              let loop := runLegs env pm_amount_split 0 none
              match loop.1 with
              | .error e => (.err e, .updatedIntent payment_intent_update :: loop.2)
              | .ok payment_response_data =>
                  let final_update :=
                    PaymentIntentUpdate.voidUpdate .succeeded env.updated_by
                  let trace := .updatedIntent payment_intent_update ::
                    (loop.2 ++ [.updatedIntent final_update])
                  match env.update_payment_intent payment_intent2 final_update with
                  | .error _ => (.err .internalServerError, trace)
                  | .ok _ =>
                      match payment_response_data with
                      | none => (.panicked, trace)
                      | some payment_data => (.ok payment_data, trace)

/-- Modelled from the spec: the application of a `PaymentIntentUpdate` to the
stored intent record lives in `hyperswitch_domain_models` and is not part of
the source under verification.  Per the spec's state machine, the entry
`SplitUpdate` moves the intent into the split-in-progress status while
stamping the attempt-reference mode and the fresh attempt-group identifier,
and `VoidUpdate` sets the given status. -/
def applyPaymentIntentUpdate (intent : PaymentIntent) :
    PaymentIntentUpdate → PaymentIntent
  | .splitUpdate _ ty gid =>
      { intent with
        status := .splitInProgress
        active_attempt_id_type := some ty
        active_attempts_group_id := some gid }
  | .voidUpdate st _ => { intent with status := st }

/-- The persisted intent obtained by replaying the update events of a trace,
in order, onto an initial intent record. -/
def applyEvents (intent : PaymentIntent) (evs : List SplitEvent) : PaymentIntent :=
  evs.foldl
    (fun acc ev =>
      match ev with
      | .updatedIntent u => applyPaymentIntentUpdate acc u
      | .calledLeg _ => acc)
    intent

lemma isNonGiftCard_eq_false {x : SplitPaymentMethodDataRequest}
    (h : x.payment_method_type = PaymentMethod.giftCard) : isNonGiftCard x = false := by
  simp [isNonGiftCard, h]

lemma isNonGiftCard_eq_true {x : SplitPaymentMethodDataRequest}
    (h : x.payment_method_type ≠ PaymentMethod.giftCard) : isNonGiftCard x = true := by
  simp [isNonGiftCard, h]

lemma filter_isNonGiftCard_eq_nil {ds : List SplitPaymentMethodDataRequest}
    (h : ∀ x ∈ ds, x.payment_method_type = PaymentMethod.giftCard) :
    ds.filter isNonGiftCard = [] := by
  induction ds with
  | nil => rfl
  | cons a l ih =>
      simp [List.filter_cons, isNonGiftCard_eq_false (h a (by simp)),
        ih (fun x hx => h x (by simp [hx]))]

lemma findIdx?_isNonGiftCard_eq_none {ds : List SplitPaymentMethodDataRequest} (i : Nat)
    (h : ∀ x ∈ ds, x.payment_method_type = PaymentMethod.giftCard) :
    List.findIdx? isNonGiftCard ds i = none := by
  induction ds generalizing i with
  | nil => simp [List.findIdx?_nil]
  | cons a l ih =>
      rw [List.findIdx?_cons, isNonGiftCard_eq_false (h a (by simp))]
      simp only [Bool.false_eq_true, if_false]
      exact ih (i + 1) (fun x hx => h x (by simp [hx]))

lemma findIdx?_isNonGiftCard_middle {pre post : List SplitPaymentMethodDataRequest}
    {p : SplitPaymentMethodDataRequest} (i : Nat)
    (hpre : ∀ x ∈ pre, x.payment_method_type = PaymentMethod.giftCard)
    (hp : p.payment_method_type ≠ PaymentMethod.giftCard) :
    List.findIdx? isNonGiftCard (pre ++ p :: post) i = some (i + pre.length) := by
  induction pre generalizing i with
  | nil => simp [List.findIdx?_cons, isNonGiftCard_eq_true hp]
  | cons a l ih =>
      have step := ih (i + 1) (fun x hx => hpre x (by simp [hx]))
      simp only [List.cons_append, List.findIdx?_cons,
        isNonGiftCard_eq_false (hpre a (by simp)), Bool.false_eq_true, if_false, step,
        List.length_cons]
      congr 1
      omega

lemma getElem?_middle {α : Type} (pre post : List α) (p : α) :
    (pre ++ p :: post)[pre.length]? = some p := by
  rw [List.getElem?_append_right (Nat.le_refl pre.length)]
  simp

lemma eraseIdx_middle {α : Type} (pre post : List α) (p : α) :
    (pre ++ p :: post).eraseIdx pre.length = pre ++ post := by
  induction pre with
  | nil => rfl
  | cons a l ih => simp [List.eraseIdx_cons_succ, ih]

/-- Inversion of one successful gift-card leg: the key derivation succeeded
and the leg charges the full balance found in the fetched map under the
rebuilt balance key. -/
lemma giftCardLeg_ok {balances : BalanceMap} {elem : GiftCardData}
    {leg : PaymentMethodData × Int} (h : giftCardLeg balances elem = .ok leg) :
    ∃ k b, elem.key = some k ∧
      lookupBalance balances ⟨PaymentMethod.giftCard, elem.subtype, k⟩ = some b ∧
      leg = (.giftCard elem, b.balance) := by
  unfold giftCardLeg at h
  cases hk : elem.key with
  | none => rw [hk] at h; exact absurd h (by simp)
  | some k =>
      rw [hk] at h
      cases hb : lookupBalance balances ⟨PaymentMethod.giftCard, elem.subtype, k⟩ with
      | none => simp only [hb] at h; exact absurd h (by simp)
      | some b =>
          simp only [hb, Except.ok.injEq] at h
          exact ⟨k, b, rfl, hb, h.symm⟩

/-- Inversion of the gift-card leg loop: on success it returns one leg per
gift card, in order, each charging the full fetched balance of that card's
balance key. -/
lemma giftCardLegs_ok {balances : BalanceMap} {gcs : List GiftCardData}
    {tuples : List (PaymentMethodData × Int)}
    (h : giftCardLegs balances gcs = .ok tuples) :
    tuples.length = gcs.length ∧
    ∀ i (hi : i < gcs.length) (ht : i < tuples.length),
      ∃ k b, (gcs.get ⟨i, hi⟩).key = some k ∧
        lookupBalance balances ⟨PaymentMethod.giftCard, (gcs.get ⟨i, hi⟩).subtype, k⟩ =
          some b ∧
        tuples.get ⟨i, ht⟩ = (.giftCard (gcs.get ⟨i, hi⟩), b.balance) := by
  induction gcs generalizing tuples with
  | nil =>
      simp only [giftCardLegs, Except.ok.injEq] at h
      subst h
      exact ⟨rfl, fun i hi => absurd hi (Nat.not_lt_zero i)⟩
  | cons elem rest ih =>
      unfold giftCardLegs at h
      cases hleg : giftCardLeg balances elem with
      | error e => rw [hleg] at h; exact absurd h (by simp)
      | ok leg =>
          rw [hleg] at h
          cases hrest : giftCardLegs balances rest with
          | error e => simp only [hrest] at h; exact absurd h (by simp)
          | ok legs =>
              simp only [hrest, Except.ok.injEq] at h
              subst h
              obtain ⟨hlen, hspec⟩ := ih hrest
              refine ⟨by simp [hlen], fun i hi ht => ?_⟩
              match i with
              | 0 =>
                  obtain ⟨k, b, hk, hb, hl⟩ := giftCardLeg_ok hleg
                  exact ⟨k, b, hk, hb, by simp [hl]⟩
              | i + 1 =>
                  exact hspec i (by simpa using hi) (by simpa using ht)

/-- Allocation path lemma, one primary instrument: when the merged descriptor
list splits as `pre ++ p :: post` with `p` the only non-gift-card descriptor,
the cardinality check passes, `p` is removed as the candidate primary
instrument, and the run continues on `pre ++ post`. -/
lemma alloc_one_primary
    (fetch : List GiftCardData → Except ApiErrorResponse BalanceMap)
    (request : PaymentsConfirmIntentRequest) (payment_intent : PaymentIntent)
    {l pre post : List SplitPaymentMethodDataRequest} {p : SplitPaymentMethodDataRequest}
    (h1 : request.split_payment_method_data = some l)
    (hm : mergeStep request l = .ok (pre ++ p :: post))
    (hpre : ∀ x ∈ pre, x.payment_method_type = PaymentMethod.giftCard)
    (hpost : ∀ x ∈ post, x.payment_method_type = PaymentMethod.giftCard)
    (hp : p.payment_method_type ≠ PaymentMethod.giftCard) :
    get_payment_method_and_amount_split fetch request payment_intent =
      match extractGiftCards (pre ++ post) with
      | .error e => (.error e, false)
      | .ok gift_card_data_vec =>
          match fetch gift_card_data_vec with
          | .error e => (.error e, true)
          | .ok balances =>
              (allocateWithBalances payment_intent (some p) gift_card_data_vec balances,
                true) := by
  have hfilter : (pre ++ p :: post).filter isNonGiftCard = [p] := by
    rw [List.filter_append, filter_isNonGiftCard_eq_nil hpre, List.filter_cons]
    simp [isNonGiftCard_eq_true hp, filter_isNonGiftCard_eq_nil hpost]
  have hidx : List.findIdx? isNonGiftCard (pre ++ p :: post) = some pre.length := by
    simpa using @findIdx?_isNonGiftCard_middle pre post p 0 hpre hp
  simp only [get_payment_method_and_amount_split, h1, hm, hfilter, hidx]
  rw [if_neg (by simp)]
  simp only [Option.some_bind, getElem?_middle, eraseIdx_middle]

/-- Allocation path lemma, no primary instrument: when every descriptor of
the merged list carries the gift-card method type, the cardinality check
passes, no candidate primary instrument is retained, and the run continues
on the whole merged list. -/
lemma alloc_no_primary
    (fetch : List GiftCardData → Except ApiErrorResponse BalanceMap)
    (request : PaymentsConfirmIntentRequest) (payment_intent : PaymentIntent)
    {l combined : List SplitPaymentMethodDataRequest}
    (h1 : request.split_payment_method_data = some l)
    (hm : mergeStep request l = .ok combined)
    (hall : ∀ x ∈ combined, x.payment_method_type = PaymentMethod.giftCard) :
    get_payment_method_and_amount_split fetch request payment_intent =
      match extractGiftCards combined with
      | .error e => (.error e, false)
      | .ok gift_card_data_vec =>
          match fetch gift_card_data_vec with
          | .error e => (.error e, true)
          | .ok balances =>
              (allocateWithBalances payment_intent none gift_card_data_vec balances,
                true) := by
  have hfilter : combined.filter isNonGiftCard = [] := filter_isNonGiftCard_eq_nil hall
  have hidx : List.findIdx? isNonGiftCard combined = none :=
    findIdx?_isNonGiftCard_eq_none 0 hall
  simp only [get_payment_method_and_amount_split, h1, hm, hfilter, hidx]
  rw [if_neg (by simp)]
  simp only [Option.none_bind]

/-- When the gift-card legs were built and the gift-card balances do not
cover the order amount, the primary leg carries exactly the shortfall and is
prepended. -/
lemma allocate_shortfall_with_primary {payment_intent : PaymentIntent}
    {d : SplitPaymentMethodDataRequest} {gcs : List GiftCardData}
    {balances : BalanceMap} {tuples : List (PaymentMethodData × Int)}
    (hlegs : giftCardLegs balances gcs = .ok tuples)
    (hlt : totalBalances balances < payment_intent.order_amount) :
    allocateWithBalances payment_intent (some d) gcs balances =
      .ok ((d.payment_method_data,
        payment_intent.order_amount - totalBalances balances) :: tuples) := by
  have hmax : max (payment_intent.order_amount - totalBalances balances) 0 =
      payment_intent.order_amount - totalBalances balances :=
    max_eq_left (by omega)
  simp only [allocateWithBalances, hlegs, hmax, gt_iff_lt]
  rw [if_pos (by omega)]

/-- When the gift-card legs were built and the gift-card balances do not
cover the order amount but no candidate primary instrument exists, the
allocation fails with `InvalidRequestData`. -/
lemma allocate_shortfall_no_primary {payment_intent : PaymentIntent}
    {gcs : List GiftCardData} {balances : BalanceMap}
    {tuples : List (PaymentMethodData × Int)}
    (hlegs : giftCardLegs balances gcs = .ok tuples)
    (hlt : totalBalances balances < payment_intent.order_amount) :
    allocateWithBalances payment_intent none gcs balances =
      .error (.invalidRequestData "Requires additional payment method data") := by
  have hmax : max (payment_intent.order_amount - totalBalances balances) 0 =
      payment_intent.order_amount - totalBalances balances :=
    max_eq_left (by omega)
  simp only [allocateWithBalances, hlegs, hmax, gt_iff_lt]
  rw [if_pos (by omega)]

/-- When the gift-card balances cover the order amount, the remaining amount
clamps to zero and only the gift-card legs are returned, whether or not a
candidate primary instrument exists. -/
lemma allocate_covered {payment_intent : PaymentIntent}
    {ngc : Option SplitPaymentMethodDataRequest} {gcs : List GiftCardData}
    {balances : BalanceMap} {tuples : List (PaymentMethodData × Int)}
    (hlegs : giftCardLegs balances gcs = .ok tuples)
    (hge : payment_intent.order_amount ≤ totalBalances balances) :
    allocateWithBalances payment_intent ngc gcs balances = .ok tuples := by
  have hmax : max (payment_intent.order_amount - totalBalances balances) 0 = 0 :=
    max_eq_right (by omega)
  simp only [allocateWithBalances, hlegs, hmax, gt_iff_lt]
  rw [if_neg (by omega)]

/-- C1: for every allocation call where the summed fetched gift-card balances
are strictly less than `order_amount` and exactly one non-gift-card
descriptor is present in the merged list, the returned leg list is the
primary-instrument leg carrying exactly `order_amount` minus the summed
balances, prepended in front of the gift-card legs, and each gift-card leg
charges its full fetched balance in the declared order. -/
theorem c1_shortfall_prepends_primary
    (fetch : List GiftCardData → Except ApiErrorResponse BalanceMap)
    (request : PaymentsConfirmIntentRequest) (payment_intent : PaymentIntent)
    {l pre post : List SplitPaymentMethodDataRequest} {p : SplitPaymentMethodDataRequest}
    {gcs : List GiftCardData} {balances : BalanceMap}
    {tuples : List (PaymentMethodData × Int)}
    (h1 : request.split_payment_method_data = some l)
    (hm : mergeStep request l = .ok (pre ++ p :: post))
    (hpre : ∀ x ∈ pre, x.payment_method_type = PaymentMethod.giftCard)
    (hpost : ∀ x ∈ post, x.payment_method_type = PaymentMethod.giftCard)
    (hp : p.payment_method_type ≠ PaymentMethod.giftCard)
    (hex : extractGiftCards (pre ++ post) = .ok gcs)
    (hf : fetch gcs = .ok balances)
    (hlegs : giftCardLegs balances gcs = .ok tuples)
    (hlt : totalBalances balances < payment_intent.order_amount) :
    (get_payment_method_and_amount_split fetch request payment_intent).1 =
      .ok ((p.payment_method_data,
        payment_intent.order_amount - totalBalances balances) :: tuples) ∧
    tuples.length = gcs.length ∧
    ∀ i (hi : i < gcs.length) (ht : i < tuples.length),
      ∃ k b, (gcs.get ⟨i, hi⟩).key = some k ∧
        lookupBalance balances ⟨PaymentMethod.giftCard, (gcs.get ⟨i, hi⟩).subtype, k⟩ =
          some b ∧
        tuples.get ⟨i, ht⟩ = (.giftCard (gcs.get ⟨i, hi⟩), b.balance) := by
  obtain ⟨hlen, hchar⟩ := giftCardLegs_ok hlegs
  refine ⟨?_, hlen, hchar⟩
  rw [alloc_one_primary fetch request payment_intent h1 hm hpre hpost hp]
  simp only [hex, hf, allocate_shortfall_with_primary hlegs hlt]

/-- C2: for every allocation call where the summed fetched gift-card balances
are greater than or equal to `order_amount`, the result contains no
primary-instrument leg — whether one non-gift-card descriptor was declared or
none — and consists exactly of the gift-card legs charging their full fetched
balances in declared order. -/
theorem c2_covered_drops_primary
    (fetch : List GiftCardData → Except ApiErrorResponse BalanceMap)
    (request : PaymentsConfirmIntentRequest) (payment_intent : PaymentIntent)
    {l combined rest : List SplitPaymentMethodDataRequest}
    {gcs : List GiftCardData} {balances : BalanceMap}
    {tuples : List (PaymentMethodData × Int)}
    (h1 : request.split_payment_method_data = some l)
    (hm : mergeStep request l = .ok combined)
    (hshape :
      (∃ pre p post, combined = pre ++ p :: post ∧
        (∀ x ∈ pre, x.payment_method_type = PaymentMethod.giftCard) ∧
        (∀ x ∈ post, x.payment_method_type = PaymentMethod.giftCard) ∧
        p.payment_method_type ≠ PaymentMethod.giftCard ∧ rest = pre ++ post) ∨
      ((∀ x ∈ combined, x.payment_method_type = PaymentMethod.giftCard) ∧
        rest = combined))
    (hex : extractGiftCards rest = .ok gcs)
    (hf : fetch gcs = .ok balances)
    (hlegs : giftCardLegs balances gcs = .ok tuples)
    (hge : payment_intent.order_amount ≤ totalBalances balances) :
    (get_payment_method_and_amount_split fetch request payment_intent).1 = .ok tuples ∧
    tuples.length = gcs.length ∧
    ∀ i (hi : i < gcs.length) (ht : i < tuples.length),
      ∃ k b, (gcs.get ⟨i, hi⟩).key = some k ∧
        lookupBalance balances ⟨PaymentMethod.giftCard, (gcs.get ⟨i, hi⟩).subtype, k⟩ =
          some b ∧
        tuples.get ⟨i, ht⟩ = (.giftCard (gcs.get ⟨i, hi⟩), b.balance) := by
  obtain ⟨hlen, hchar⟩ := giftCardLegs_ok hlegs
  refine ⟨?_, hlen, hchar⟩
  rcases hshape with ⟨pre, p, post, hc, hpre, hpost, hp, hrest⟩ | ⟨hall, hrest⟩
  · subst hc
    subst hrest
    rw [alloc_one_primary fetch request payment_intent h1 hm hpre hpost hp]
    simp only [hex, hf, allocate_covered hlegs hge]
  · subst hrest
    rw [alloc_no_primary fetch request payment_intent h1 hm hall]
    simp only [hex, hf, allocate_covered hlegs hge]

/-- C5: for every request whose merged descriptor list contains two or more
descriptors whose method type is not gift-card, the allocation fails with
`InvalidRequestData` and no balance lookup is issued before that failure
(the recorded fetch flag is `false`). -/
theorem c5_multiple_primaries_rejected_before_fetch
    (fetch : List GiftCardData → Except ApiErrorResponse BalanceMap)
    (request : PaymentsConfirmIntentRequest) (payment_intent : PaymentIntent)
    {l combined : List SplitPaymentMethodDataRequest}
    (h1 : request.split_payment_method_data = some l)
    (hm : mergeStep request l = .ok combined)
    (hcount : 2 ≤ (combined.filter isNonGiftCard).length) :
    get_payment_method_and_amount_split fetch request payment_intent =
      (.error (.invalidRequestData
        "At most one non-gift card payment method is allowed"), false) := by
  simp only [get_payment_method_and_amount_split, h1, hm]
  rw [if_pos (by omega)]

/-- C6: for every request where the summed fetched gift-card balances are
strictly less than `order_amount` and the merged descriptor list contains no
non-gift-card descriptor, the allocation fails with `InvalidRequestData`. -/
theorem c6_shortfall_without_primary_rejected
    (fetch : List GiftCardData → Except ApiErrorResponse BalanceMap)
    (request : PaymentsConfirmIntentRequest) (payment_intent : PaymentIntent)
    {l combined : List SplitPaymentMethodDataRequest}
    {gcs : List GiftCardData} {balances : BalanceMap}
    {tuples : List (PaymentMethodData × Int)}
    (h1 : request.split_payment_method_data = some l)
    (hm : mergeStep request l = .ok combined)
    (hall : ∀ x ∈ combined, x.payment_method_type = PaymentMethod.giftCard)
    (hex : extractGiftCards combined = .ok gcs)
    (hf : fetch gcs = .ok balances)
    (hlegs : giftCardLegs balances gcs = .ok tuples)
    (hlt : totalBalances balances < payment_intent.order_amount) :
    (get_payment_method_and_amount_split fetch request payment_intent).1 =
      .error (.invalidRequestData "Requires additional payment method data") := by
  rw [alloc_no_primary fetch request payment_intent h1 hm hall]
  simp only [hex, hf, allocate_shortfall_no_primary hlegs hlt]

/-- C9: the merge step is deterministic across retries — run twice on the
same input list it yields the same combined list both times — and it inserts
exactly one descriptor (the one built from the request's top-level
instrument fields) at the end of the declared list, so no duplicate is
accumulated by re-running it on the same input. -/
theorem c9_merge_deterministic_single_insertion
    (request : PaymentsConfirmIntentRequest)
    (l : List SplitPaymentMethodDataRequest) {parent : PaymentMethodData}
    (h2 : request.payment_method_data.payment_method_data = some parent) :
    mergeStep request l = mergeStep request l ∧
    mergeStep request l =
      .ok (l ++ [⟨parent, request.payment_method_type, request.payment_method_subtype⟩]) ∧
    (l ++ [(⟨parent, request.payment_method_type,
      request.payment_method_subtype⟩ : SplitPaymentMethodDataRequest)]).length =
      l.length + 1 := by
  refine ⟨rfl, ?_, by simp⟩
  simp [mergeStep, h2]

/-- C10: for every request whose optional list of additional split
descriptors is absent, the allocation fails with `MissingRequiredField` for
`split_payment_method_data` before anything else — for every balance oracle
and every payment intent the result is that error with no balance lookup
issued. -/
theorem c10_missing_split_list_rejected_first
    (fetch : List GiftCardData → Except ApiErrorResponse BalanceMap)
    (request : PaymentsConfirmIntentRequest) (payment_intent : PaymentIntent)
    (h : request.split_payment_method_data = none) :
    get_payment_method_and_amount_split fetch request payment_intent =
      (.error (.missingRequiredField "split_payment_method_data"), false) := by
  simp [get_payment_method_and_amount_split, h]

/-- Concrete non-gift-card payload used by the concrete scenarios. -/
def cardTok : PaymentMethodData := .card "tok"

/-- Concrete gift-card payload with a derivable key. -/
def gcGivex : GiftCardData := ⟨.givex, some "k1"⟩

/-- Concrete declared gift-card split descriptor. -/
def gcDescGivex : SplitPaymentMethodDataRequest := ⟨.giftCard gcGivex, .giftCard, .givex⟩

/-- The implicit top-level descriptor built by the merge step for a request
whose top-level instrument is `cardTok`. -/
def outerCard : SplitPaymentMethodDataRequest := ⟨cardTok, .card, .credit⟩

/-- Request declaring one gift card plus the top-level card instrument. -/
def reqMixed : PaymentsConfirmIntentRequest :=
  ⟨some [gcDescGivex], ⟨some cardTok⟩, .card, .credit⟩

/-- Request with an explicitly empty split list and only the top-level card
instrument. -/
def reqPrimaryOnly : PaymentsConfirmIntentRequest :=
  ⟨some [], ⟨some cardTok⟩, .card, .credit⟩

/-- Request with an explicitly empty split list and a top-level gift card
(no primary instrument anywhere). -/
def reqGiftOnly : PaymentsConfirmIntentRequest :=
  ⟨some [], ⟨some (.giftCard gcGivex)⟩, .giftCard, .givex⟩

/-- Request omitting the optional split-descriptor list entirely. -/
def reqNoSplitList : PaymentsConfirmIntentRequest :=
  ⟨none, ⟨some cardTok⟩, .card, .credit⟩

/-- Request declaring two non-gift-card instruments (one explicit split
entry and the top-level one). -/
def reqTwoPrimaries : PaymentsConfirmIntentRequest :=
  ⟨some [⟨.card "a", .card, .credit⟩], ⟨some cardTok⟩, .card, .credit⟩

/-- Concrete intents of various order amounts. -/
def intentZero : PaymentIntent := ⟨0, .requiresPaymentMethod, none, none⟩

def intent400 : PaymentIntent := ⟨400, .requiresPaymentMethod, none, none⟩

def intent1000 : PaymentIntent := ⟨1000, .requiresPaymentMethod, none, none⟩

def intent1500 : PaymentIntent := ⟨1500, .requiresPaymentMethod, none, none⟩

/-- Balance snapshot holding 400 for the concrete gift card's key. -/
def balances400 : BalanceMap := [(⟨.giftCard, .givex, "k1"⟩, ⟨400⟩)]

/-- Balance oracle answering every batch with `balances400`. -/
def fetch400 : List GiftCardData → Except ApiErrorResponse BalanceMap :=
  fun _ => .ok balances400

/-- Balance oracle answering every batch with the empty map. -/
def emptyFetch : List GiftCardData → Except ApiErrorResponse BalanceMap :=
  fun _ => .ok []

/-- C7 counterexample: with zero declared gift cards, exactly one primary
instrument and `order_amount = 0`, the allocation returns the empty leg list
— not the single primary leg paired with the full order amount that the
claim asserts for every such request. -/
theorem c7_counterexample :
    (get_payment_method_and_amount_split emptyFetch reqPrimaryOnly intentZero).1 =
      .ok [] ∧
    (Except.ok [] : Except ApiErrorResponse (List (PaymentMethodData × Int))) ≠
      .ok [(cardTok, intentZero.order_amount)] := by
  exact ⟨rfl, by simp⟩

/-- C7 (amended): for every request with zero declared gift-card instruments
and exactly one primary instrument, provided `order_amount` is positive, the
allocation result is exactly one leg pairing the primary instrument with the
full `order_amount` (when `order_amount ≤ 0` the result is the empty list
instead, because the clamped remaining amount is zero). -/
theorem c7_primary_only_full_amount
    (fetch : List GiftCardData → Except ApiErrorResponse BalanceMap)
    (request : PaymentsConfirmIntentRequest) (payment_intent : PaymentIntent)
    {parent : PaymentMethodData}
    (h1 : request.split_payment_method_data = some [])
    (h2 : request.payment_method_data.payment_method_data = some parent)
    (hp : request.payment_method_type ≠ PaymentMethod.giftCard)
    (hf : fetch [] = .ok [])
    (hA : 0 < payment_intent.order_amount) :
    (get_payment_method_and_amount_split fetch request payment_intent).1 =
      .ok [(parent, payment_intent.order_amount)] := by
  have hm : mergeStep request [] =
      .ok (([] : List SplitPaymentMethodDataRequest) ++
        (⟨parent, request.payment_method_type, request.payment_method_subtype⟩ :
          SplitPaymentMethodDataRequest) :: []) := by
    simp [mergeStep, h2]
  rw [alloc_one_primary fetch request payment_intent h1 hm (by simp) (by simp) hp]
  have hlt : totalBalances [] < payment_intent.order_amount := by
    simpa [totalBalances] using hA
  have hleg := @allocate_shortfall_with_primary payment_intent
    ⟨parent, request.payment_method_type, request.payment_method_subtype⟩ [] [] [] rfl hlt
  simp only [List.append_nil, extractGiftCards, hf, hleg]
  simp [totalBalances]

/-- C1 witness: order 1500, one declared gift card with fetched balance 400,
top-level card — the allocation prepends the card leg for the 1100 shortfall
in front of the 400 gift-card leg. -/
theorem c1_witness :
    totalBalances balances400 < intent1500.order_amount ∧
    (get_payment_method_and_amount_split fetch400 reqMixed intent1500).1 =
      .ok [(cardTok, 1100), (.giftCard gcGivex, 400)] := by
  have hm : mergeStep reqMixed [gcDescGivex] =
      .ok ([gcDescGivex] ++ outerCard :: []) := rfl
  have h := c1_shortfall_prepends_primary fetch400 reqMixed intent1500 rfl hm
    (by decide) (by simp) (by decide) rfl rfl rfl (by decide)
  exact ⟨by decide, h.1⟩

/-- C2 witness: order 400, one declared gift card with fetched balance 400,
top-level card declared — the card is dropped and the result is the single
full-balance gift-card leg. -/
theorem c2_witness :
    intent400.order_amount ≤ totalBalances balances400 ∧
    (get_payment_method_and_amount_split fetch400 reqMixed intent400).1 =
      .ok [(.giftCard gcGivex, 400)] := by
  have hm : mergeStep reqMixed [gcDescGivex] = .ok [gcDescGivex, outerCard] := rfl
  have hex : extractGiftCards [gcDescGivex] = .ok [gcGivex] := rfl
  have h := c2_covered_drops_primary fetch400 reqMixed intent400 rfl hm
    (Or.inl ⟨[gcDescGivex], outerCard, [], rfl, by decide, by simp, by decide, rfl⟩)
    hex rfl rfl (by decide)
  exact ⟨by decide, h.1⟩

/-- C5 witness: one explicit card split entry plus the top-level card — two
non-gift-card descriptors — is rejected with `InvalidRequestData` and the
fetch flag stays `false`. -/
theorem c5_witness :
    2 ≤ ((([⟨.card "a", .card, .credit⟩] : List SplitPaymentMethodDataRequest) ++
      [outerCard]).filter isNonGiftCard).length ∧
    get_payment_method_and_amount_split emptyFetch reqTwoPrimaries intent1500 =
      (.error (.invalidRequestData
        "At most one non-gift card payment method is allowed"), false) := by
  have hm : mergeStep reqTwoPrimaries [⟨.card "a", .card, .credit⟩] =
      .ok ([⟨.card "a", .card, .credit⟩] ++ [outerCard]) := rfl
  exact ⟨by decide,
    c5_multiple_primaries_rejected_before_fetch emptyFetch reqTwoPrimaries intent1500
      rfl hm (by decide)⟩

/-- C6 witness: order 1000, a single top-level gift card with fetched balance
400 and no primary instrument anywhere — allocation fails with
`InvalidRequestData`. -/
theorem c6_witness :
    totalBalances balances400 < intent1000.order_amount ∧
    (get_payment_method_and_amount_split fetch400 reqGiftOnly intent1000).1 =
      .error (.invalidRequestData "Requires additional payment method data") := by
  have hm : mergeStep reqGiftOnly [] =
      .ok [(⟨.giftCard gcGivex, .giftCard, .givex⟩ : SplitPaymentMethodDataRequest)] := rfl
  have hex : extractGiftCards
      [(⟨.giftCard gcGivex, .giftCard, .givex⟩ : SplitPaymentMethodDataRequest)] =
      .ok [gcGivex] := rfl
  exact ⟨by decide,
    c6_shortfall_without_primary_rejected fetch400 reqGiftOnly intent1000 rfl hm
      (by decide) hex rfl rfl (by decide)⟩

/-- C7 witness: order 1500, explicitly empty split list, top-level card —
the allocation is the single card leg for the full 1500. -/
theorem c7_witness :
    (0 : Int) < intent1500.order_amount ∧
    (get_payment_method_and_amount_split emptyFetch reqPrimaryOnly intent1500).1 =
      .ok [(cardTok, 1500)] := by
  exact ⟨by decide,
    c7_primary_only_full_amount emptyFetch reqPrimaryOnly intent1500 rfl rfl
      (by decide) rfl (by decide)⟩

/-- C9 witness: the merge of the concrete mixed request's declared list
yields the same combined list on both runs and appends exactly one
descriptor. -/
theorem c9_witness :
    mergeStep reqMixed [gcDescGivex] = mergeStep reqMixed [gcDescGivex] ∧
    mergeStep reqMixed [gcDescGivex] =
      .ok ([gcDescGivex] ++
        [⟨cardTok, reqMixed.payment_method_type, reqMixed.payment_method_subtype⟩]) ∧
    ([gcDescGivex] ++
      [(⟨cardTok, reqMixed.payment_method_type, reqMixed.payment_method_subtype⟩ :
        SplitPaymentMethodDataRequest)]).length = [gcDescGivex].length + 1 := by
  exact c9_merge_deterministic_single_insertion reqMixed [gcDescGivex] rfl

/-- C10 witness: the request omitting the split list is rejected with
`MissingRequiredField` with no balance lookup, for the concrete oracle and
intent. -/
theorem c10_witness :
    reqNoSplitList.split_payment_method_data = none ∧
    get_payment_method_and_amount_split fetch400 reqNoSplitList intent1500 =
      (.error (.missingRequiredField "split_payment_method_data"), false) := by
  exact ⟨rfl,
    c10_missing_split_list_rejected_first fetch400 reqNoSplitList intent1500 rfl⟩

/-- The leg loop aborts at the first failing pipeline call: when every leg
before position `L1.length` (counting from `i`) succeeds together with its
status reset and the next leg's call fails, the loop returns that error,
calls no position beyond the failing one, and the only intent updates it
issues are the per-leg `RequiresPaymentMethod` resets. -/
lemma runLegs_fails (env : SplitEnv) (L1 : List (PaymentMethodData × Int))
    (lk : PaymentMethodData × Int) (L2 : List (PaymentMethodData × Int))
    (errk : ApiErrorResponse) (i : Nat) (acc : Option PaymentConfirmData)
    (hpre : ∀ j (hj : j < L1.length), ∃ d,
      env.runLeg (i + j) (L1.get ⟨j, hj⟩) = .ok d ∧
      ∃ q, env.update_payment_intent d.payment_intent
        (.voidUpdate .requiresPaymentMethod env.updated_by) = .ok q)
    (hfail : env.runLeg (i + L1.length) lk = .error errk) :
    (runLegs env (L1 ++ lk :: L2) i acc).1 = .error errk ∧
    (∀ j, SplitEvent.calledLeg j ∈ (runLegs env (L1 ++ lk :: L2) i acc).2 →
      j ≤ i + L1.length) ∧
    (∀ u, SplitEvent.updatedIntent u ∈ (runLegs env (L1 ++ lk :: L2) i acc).2 →
      u = .voidUpdate .requiresPaymentMethod env.updated_by) := by
  induction L1 generalizing i acc with
  | nil =>
      have hf : env.runLeg i lk = .error errk := by simpa using hfail
      simp only [List.nil_append, runLegs, hf, List.length_nil]
      refine ⟨trivial, ?_, ?_⟩
      · intro j hj
        simp only [List.mem_singleton, SplitEvent.calledLeg.injEq] at hj
        omega
      · intro u hu
        simp at hu
  | cons a L1x ih =>
      obtain ⟨d, hd, q, hq⟩ := hpre 0 (by simp)
      have hd2 : env.runLeg i a = .ok d := by simpa using hd
      have hpre2 : ∀ j (hj : j < L1x.length), ∃ d2,
          env.runLeg (i + 1 + j) (L1x.get ⟨j, hj⟩) = .ok d2 ∧
          ∃ q2, env.update_payment_intent d2.payment_intent
            (.voidUpdate .requiresPaymentMethod env.updated_by) = .ok q2 := by
        intro j hj
        obtain ⟨d2, hd3, q2, hq2⟩ := hpre (j + 1) (by simpa using Nat.succ_lt_succ hj)
        refine ⟨d2, ?_, q2, hq2⟩
        rw [show i + 1 + j = i + (j + 1) by omega]
        exact hd3
      have hfail2 : env.runLeg (i + 1 + L1x.length) lk = .error errk := by
        rw [show i + 1 + L1x.length = i + (a :: L1x).length by simp; omega]
        exact hfail
      obtain ⟨ih1, ih2, ih3⟩ := ih (i + 1) (some d) hpre2 hfail2
      simp only [List.cons_append, runLegs, hd2, hq]
      refine ⟨ih1, ?_, ?_⟩
      · intro j hj
        simp only [List.mem_cons] at hj
        rcases hj with hj | hj | hj
        · cases hj; simp
        · cases hj
        · have := ih2 j hj
          simp only [List.length_cons]
          omega
      · intro u hu
        simp only [List.mem_cons] at hu
        rcases hu with hu | hu | hu
        · cases hu
        · cases hu; rfl
        · exact ih3 u hu

/-- C8: for every orchestration run whose prefix succeeded (intent found,
entry transition persisted, allocation returned the legs `L1 ++ lk :: L2`),
when the pipeline calls for the `L1` legs succeed (with their status resets)
and the call for `lk` fails, that error is the run's result, no pipeline
call is made for any leg past the failing position, and the terminal
`Succeeded` status update is never issued. -/
theorem c8_leg_failure_aborts_run
    (env : SplitEnv) (request : PaymentsConfirmIntentRequest)
    {pi pi2 : PaymentIntent} {L1 L2 : List (PaymentMethodData × Int)}
    {lk : PaymentMethodData × Int} {errk : ApiErrorResponse}
    (hfind : env.find_payment_intent = .ok pi)
    (hupd : env.update_payment_intent pi
      (.splitUpdate env.updated_by .attemptID env.generated_group_id) = .ok pi2)
    (halloc : (get_payment_method_and_amount_split env.fetch request pi2).1 =
      .ok (L1 ++ lk :: L2))
    (hpre : ∀ j (hj : j < L1.length), ∃ d,
      env.runLeg j (L1.get ⟨j, hj⟩) = .ok d ∧
      ∃ q, env.update_payment_intent d.payment_intent
        (.voidUpdate .requiresPaymentMethod env.updated_by) = .ok q)
    (hfail : env.runLeg L1.length lk = .error errk) :
    (payments_execute_split_core env request).1 = .err errk ∧
    (∀ j, SplitEvent.calledLeg j ∈ (payments_execute_split_core env request).2 →
      j ≤ L1.length) ∧
    SplitEvent.updatedIntent (.voidUpdate .succeeded env.updated_by) ∉
      (payments_execute_split_core env request).2 := by
  obtain ⟨hl1, hl2, hl3⟩ := runLegs_fails env L1 lk L2 errk 0 none
    (fun j hj => by simpa using hpre j hj) (by simpa using hfail)
  simp only [payments_execute_split_core, hfind, hupd, halloc, hl1]
  refine ⟨trivial, ?_, ?_⟩
  · intro j hj
    simp only [List.mem_cons] at hj
    rcases hj with hj | hj
    · cases hj
    · simpa using hl2 j hj
  · intro hu
    simp only [List.mem_cons] at hu
    rcases hu with hu | hu
    · cases hu
    · have := hl3 _ hu
      simp at this

/-- C4: for every orchestration run where the intent was found and the entry
`SplitUpdate` persisted but the allocation then fails, the run returns the
allocation error, the only persisted update issued is the entry transition
(no rollback to `RequiresPaymentMethod`, no `Succeeded`), and replaying the
issued updates leaves the intent in the split-in-progress status. -/
theorem c4_allocation_failure_leaves_split_in_progress
    (env : SplitEnv) (request : PaymentsConfirmIntentRequest)
    {pi pi2 : PaymentIntent} {e : ApiErrorResponse}
    (hfind : env.find_payment_intent = .ok pi)
    (hupd : env.update_payment_intent pi
      (.splitUpdate env.updated_by .attemptID env.generated_group_id) = .ok pi2)
    (halloc : (get_payment_method_and_amount_split env.fetch request pi2).1 =
      .error e) :
    payments_execute_split_core env request =
      (.err e, [.updatedIntent
        (.splitUpdate env.updated_by .attemptID env.generated_group_id)]) ∧
    (applyEvents pi (payments_execute_split_core env request).2).status =
      .splitInProgress := by
  have hmain : payments_execute_split_core env request =
      (.err e, [.updatedIntent
        (.splitUpdate env.updated_by .attemptID env.generated_group_id)]) := by
    simp only [payments_execute_split_core, hfind, hupd, halloc]
  refine ⟨hmain, ?_⟩
  rw [hmain]
  rfl

/-- An intent store that always answers with the update applied per the
spec's state machine. -/
def applyStoreUpdate : PaymentIntent → PaymentIntentUpdate → Except Unit PaymentIntent :=
  fun intent u => .ok (applyPaymentIntentUpdate intent u)

/-- Concrete environment whose allocation yields the empty leg list: the
found intent has `order_amount = 0`, every persisted update succeeds, the
balance service returns the empty map, and the pipeline (never reached)
would fail. -/
def envEmptyAlloc : SplitEnv :=
  { find_payment_intent := .ok intentZero
    update_payment_intent := applyStoreUpdate
    fetch := emptyFetch
    runLeg := fun _ _ => .error .internalServerError
    updated_by := "kv"
    generated_group_id := "grp1" }

/-- C3 (evaluation at the failing input): when the allocation returns the
empty leg list, the orchestrator does not fail with a structured error — it
panics at the `unwrap` of the unset result accumulator, and it does so only
after having persisted the terminal `Succeeded` update. -/
theorem c3_empty_allocation_panics :
    payments_execute_split_core envEmptyAlloc reqPrimaryOnly =
      (.panicked,
        [.updatedIntent (.splitUpdate "kv" .attemptID "grp1"),
         .updatedIntent (.voidUpdate .succeeded "kv")]) := by
  decide

/-- Concrete environment for the orchestrator witnesses: order 1500, the
mixed balance oracle, all persisted updates succeed, and every pipeline call
fails. -/
def envLegFails : SplitEnv :=
  { find_payment_intent := .ok intent1500
    update_payment_intent := applyStoreUpdate
    fetch := emptyFetch
    runLeg := fun _ _ => .error .internalServerError
    updated_by := "kv"
    generated_group_id := "grp1" }

/-- C8 witness: with one allocated leg whose pipeline call fails, the run
returns that error, calls no later leg, and never issues the `Succeeded`
update. -/
theorem c8_witness :
    envLegFails.runLeg 0 (cardTok, 1500) = .error .internalServerError ∧
    (payments_execute_split_core envLegFails reqPrimaryOnly).1 =
      .err .internalServerError ∧
    SplitEvent.updatedIntent (.voidUpdate .succeeded "kv") ∉
      (payments_execute_split_core envLegFails reqPrimaryOnly).2 := by
  have halloc : (get_payment_method_and_amount_split envLegFails.fetch reqPrimaryOnly
      (applyPaymentIntentUpdate intent1500 (.splitUpdate "kv" .attemptID "grp1"))).1 =
      .ok (([] : List (PaymentMethodData × Int)) ++ (cardTok, 1500) :: []) := rfl
  have h := c8_leg_failure_aborts_run envLegFails reqPrimaryOnly rfl rfl halloc
    (fun j hj => absurd hj (by simp)) rfl
  exact ⟨rfl, h.1, h.2.2⟩

/-- Concrete environment for the C4 witness: the entry transition persists,
then the allocation fails because the request omits the split list. -/
def envAllocFails : SplitEnv :=
  { find_payment_intent := .ok intent1500
    update_payment_intent := applyStoreUpdate
    fetch := fetch400
    runLeg := fun _ _ => .error .internalServerError
    updated_by := "kv"
    generated_group_id := "grp1" }

/-- C4 witness: after a successful entry transition, an allocation failure
aborts the run with that error, with the entry transition the only persisted
update, leaving the replayed intent in the split-in-progress status. -/
theorem c4_witness :
    (get_payment_method_and_amount_split envAllocFails.fetch reqNoSplitList
      (applyPaymentIntentUpdate intent1500 (.splitUpdate "kv" .attemptID "grp1"))).1 =
      .error (.missingRequiredField "split_payment_method_data") ∧
    payments_execute_split_core envAllocFails reqNoSplitList =
      (.err (.missingRequiredField "split_payment_method_data"),
        [.updatedIntent (.splitUpdate "kv" .attemptID "grp1")]) ∧
    (applyEvents intent1500
      (payments_execute_split_core envAllocFails reqNoSplitList).2).status =
      .splitInProgress := by
  have h := c4_allocation_failure_leaves_split_in_progress envAllocFails
    reqNoSplitList rfl rfl rfl
  exact ⟨rfl, h.1, h.2⟩

end SplitPayments
